import Mathlib

/-!
# SideScreen — verification of the streaming pipeline and gesture engine

Shallow embedding of the parts of the SideScreen host relevant to the
protocol, back-pressure, pacing and gesture claims:

* `src/WindowsHost/src/Config.h`            — protocol constants and limits
* `src/LinuxHost/src/streaming/StreamingServer.cpp`
    — `receiveLoop`, `sendPong`, `sendFrame`, `handleClient`, `updateStats`
* `src/LinuxHost/src/AppController.cpp` (`connectPipeline`) and
  `src/LinuxHost/src/capture/ScreenCapture.h` (`isBackpressured`)
    — the back-pressure counter discipline
* `src/LinuxHost/src/input/TouchHandler.cpp` — the gesture state machine
* `src/LinuxHost/src/encoder/FFmpegEncoder.cpp` (`bgraToNV12`)
* `src/LinuxHost/src/capture/X11Capture.cpp` and
  `src/WindowsHost/src/capture/ScreenCapture.cpp` — capture pacing

Bytes are modelled as `ℕ` (with values `< 256` where it matters), C `int`
arithmetic as `ℤ` (no intermediate value here comes near `2^31`, so wrap-around
never fires), and time as `ℕ` milliseconds on a monotonic clock.  C++ float
comparisons of integer pixel distances against integer thresholds are modelled
by comparing squared distances (exact for the magnitudes involved); the float
scroll/pinch quantities that never decide any claim are carried as exact
rationals.
-/

namespace SideScreen

/-! ## Config.h constants (src/WindowsHost/src/Config.h) -/

namespace Config

def MSG_VIDEO_FRAME : ℕ := 0
def MSG_DISPLAY_CONFIG : ℕ := 1
def MSG_TOUCH_EVENT : ℕ := 2
def MSG_PING : ℕ := 4
def MSG_PONG : ℕ := 5

def MAX_FRAME_SIZE : ℕ := 5 * 1024 * 1024
def ENCODER_QUEUE_DEPTH : ℤ := 2

def TAP_MAX_DISTANCE : ℤ := 15
def TAP_MAX_TIME_MS : ℕ := 250
def DOUBLE_TAP_MAX_TIME_MS : ℕ := 400
def DOUBLE_TAP_MAX_DISTANCE : ℤ := 20
def LONG_PRESS_TIME_MS : ℕ := 500
def SCROLL_SENSITIVITY : ℚ := 12 / 10
def PINCH_MIN_DISTANCE : ℚ := 20

end Config

/-! ## Byte-order helpers (StreamingServer.cpp) -/

/-- `writeBE32`: the four big-endian bytes of a 32-bit value. -/
def writeBE32 (v : ℕ) : List ℕ :=
  [v / 2 ^ 24 % 256, v / 2 ^ 16 % 256, v / 2 ^ 8 % 256, v % 256]

/-- `readLE32`: little-endian bytes to a signed 32-bit integer
(two's complement). -/
def readLE32 (b0 b1 b2 b3 : ℕ) : ℤ :=
  let u := b0 + 256 * b1 + 65536 * b2 + 16777216 * b3
  if u < 2 ^ 31 then (u : ℤ) else (u : ℤ) - 2 ^ 32

/-- `readLEFloat` is a `memcpy` of 4 little-endian bytes into a `float`; the
float is determined by its 32-bit pattern, which is what we carry around. -/
def readLEWord (b0 b1 b2 b3 : ℕ) : ℕ :=
  b0 + 256 * b1 + 65536 * b2 + 16777216 * b3

/-! ## StreamingServer::receiveLoop

The receive loop of `StreamingServer.cpp` (lines 285–365), modelled as a
function of the finite byte stream the client sends on one session (the
`m_running && m_clientConnected` run-to-completion case).  Every externally
visible effect of the loop is recorded as a `ServerAction`:
`sendPacket` for `sendPong`, `touchCallback` for `m_touchCallback`
invocations (the four coordinate floats are carried as their 32-bit LE bit
patterns), and the unconditional post-loop `closeClient()` /
`m_connectionCallback(false)` pair. -/

inductive ServerAction where
  | sendPacket (bytes : List ℕ)
  | touchCallback (pointerCount : ℕ) (x1 y1 x2 y2 : ℕ) (action : ℤ)
  | closeClient
  | connCallback (connected : Bool)
deriving DecidableEq, Repr

/-- The body of the `while` loop: actions performed until the loop exits
(by EOF / short read, invalid pointer count, or unknown opcode). -/
def receiveLoopBody : List ℕ → List ServerAction
  | [] => []
  | msgType :: rest =>
    if msgType = Config.MSG_TOUCH_EVENT then
      -- recvAll of the pointer-count byte fails on an empty stream
      if rest.length = 0 then []
      else
        let pointerCount := rest.headD 0
        let rest2 := rest.tail
        if pointerCount < 1 ∨ pointerCount > 2 then
          []
        else
          let coordSize := pointerCount * 8
          let payloadSize := coordSize + 4
          if payloadSize ≤ rest2.length then
            let payload := rest2.take payloadSize
            let x1 := readLEWord (payload.getD 0 0) (payload.getD 1 0)
                        (payload.getD 2 0) (payload.getD 3 0)
            let y1 := readLEWord (payload.getD 4 0) (payload.getD 5 0)
                        (payload.getD 6 0) (payload.getD 7 0)
            let x2 := if 2 ≤ pointerCount then
                        readLEWord (payload.getD 8 0) (payload.getD 9 0)
                          (payload.getD 10 0) (payload.getD 11 0)
                      else 0
            let y2 := if 2 ≤ pointerCount then
                        readLEWord (payload.getD 12 0) (payload.getD 13 0)
                          (payload.getD 14 0) (payload.getD 15 0)
                      else 0
            let action := readLE32 (payload.getD coordSize 0)
                            (payload.getD (coordSize + 1) 0)
                            (payload.getD (coordSize + 2) 0)
                            (payload.getD (coordSize + 3) 0)
            ServerAction.touchCallback pointerCount x1 y1 x2 y2 action ::
              receiveLoopBody (rest2.drop payloadSize)
          else []
    else if msgType = Config.MSG_PING then
      if 8 ≤ rest.length then
        ServerAction.sendPacket (Config.MSG_PONG :: rest.take 8) ::
          receiveLoopBody (rest.drop 8)
      else []
    else
      []
termination_by input => input.length
decreasing_by
  · simp only [List.length_drop, List.length_tail, List.length_cons]; omega
  · simp only [List.length_drop, List.length_cons]; omega

/-- Number of bytes the loop reads from the socket (partial `recvAll`s at EOF
consume what is available). -/
def receiveConsumed : List ℕ → ℕ
  | [] => 0
  | msgType :: rest =>
    if msgType = Config.MSG_TOUCH_EVENT then
      if rest.length = 0 then 1
      else
        let pointerCount := rest.headD 0
        let rest2 := rest.tail
        if pointerCount < 1 ∨ pointerCount > 2 then
          2
        else
          let payloadSize := pointerCount * 8 + 4
          if payloadSize ≤ rest2.length then
            2 + payloadSize + receiveConsumed (rest2.drop payloadSize)
          else 2 + rest2.length
    else if msgType = Config.MSG_PING then
      if 8 ≤ rest.length then 1 + 8 + receiveConsumed (rest.drop 8)
      else 1 + rest.length
    else
      1
termination_by input => input.length
decreasing_by
  · simp only [List.length_drop, List.length_tail, List.length_cons]; omega
  · simp only [List.length_drop, List.length_cons]; omega

/-- The whole receive task: the loop, then (on every exit path)
`closeClient()` and `m_connectionCallback(false)`. -/
def receiveLoop (input : List ℕ) : List ServerAction :=
  receiveLoopBody input ++ [ServerAction.closeClient, ServerAction.connCallback false]

/-! ## StreamingServer::sendFrame (lines 112–151) and updateStats (443–464)

`sendFrame(data, size)` is a function of the per-session state
(`m_clientConnected`, socket validity, the stats counters), the payload and
its size.  A null `data` pointer is the flag `dataNull`; the success of the
two `sendAll` calls is abstracted by `sendOk` (on failure the TCP stack has
accepted at most a prefix of the attempted chunks, never different bytes);
whether the 1-second stats window elapsed inside `updateStats` is the flag
`windowElapsed`.  The wire output is `none` (nothing attempted) or the
attempted `WireMsg` (5-byte header, `size`-byte payload). -/

structure ServerState where
  clientConnected : Bool
  sockValid : Bool
  bytesSent : ℕ
  frameCount : ℕ
deriving DecidableEq, Repr

/-- One framed message as handed to `sendAll`: header chunk then payload
chunk. -/
structure WireMsg where
  header : List ℕ
  payload : List ℕ
deriving DecidableEq, Repr

/-- `updateStats(bytes)`: add to the rolling window, and when ≥ 1 s elapsed
fire the callback and reset the window (the callback itself carries no
state). -/
def updateStats (st : ServerState) (bytes : ℕ) (windowElapsed : Bool) : ServerState :=
  let st1 := { st with bytesSent := st.bytesSent + bytes,
                       frameCount := st.frameCount + 1 }
  if windowElapsed then { st1 with bytesSent := 0, frameCount := 0 } else st1

/-- `StreamingServer::sendFrame`. -/
def sendFrame (st : ServerState) (data : ℕ → ℕ) (size : ℕ) (dataNull : Bool)
    (sendOk : Bool) (windowElapsed : Bool) : ServerState × Option WireMsg :=
  if ¬st.clientConnected ∨ dataNull ∨ size = 0 then
    (st, none)
  else if Config.MAX_FRAME_SIZE < size then
    -- "Frame too large" is logged and the frame dropped whole:
    -- no header, no payload, no stats update.
    (st, none)
  else
    let header := Config.MSG_VIDEO_FRAME :: writeBE32 size
    if ¬st.sockValid then
      (st, none)
    else if ¬sendOk then
      ({ st with clientConnected := false },
        some ⟨header, (List.range size).map data⟩)
    else
      (updateStats st size windowElapsed,
        some ⟨header, (List.range size).map data⟩)

/-! ## handleClient / sendFrame interleaving (claim C1)

`StreamingServer::handleClient` (lines 240–279) runs on the accept thread:
it stores the client socket (under `m_clientMutex`), stores
`m_clientConnected = true`, resets the stats, and only then calls
`sendDisplayConfig()`.  The encoder thread calls `sendFrame` concurrently
the whole time (capture and encoder are started by
`AppController::startServer` before `server_->start()`).  Both
`sendDisplayConfig` and `sendFrame` write their message under `m_sendMutex`,
so on the wire whole messages appear in send-mutex acquisition order; the
model makes each message append atomic and interleaves the four relevant
atomic actions.  `wire` records the opcode of each message in wire order. -/

inductive ConnStep where
  /-- handleClient: `m_clientSocket = clientSocket` under `m_clientMutex`. -/
  | hStoreSocket
  /-- handleClient: `m_clientConnected.store(true)`. -/
  | hSetConnected
  /-- handleClient: `sendDisplayConfig()` — reads the socket, then writes the
  13-byte DISPLAY_CONFIG under `m_sendMutex`. -/
  | hSendConfig
  /-- encoder thread: one `sendFrame` call — returns early unless
  `m_clientConnected` is set and the socket valid, else writes one
  VIDEO_FRAME under `m_sendMutex`. -/
  | eSendFrame
deriving DecidableEq, Repr

structure ConnState where
  socketValid : Bool
  clientConnected : Bool
  wire : List ℕ
deriving DecidableEq, Repr

def connStep (st : ConnState) : ConnStep → ConnState
  | ConnStep.hStoreSocket => { st with socketValid := true }
  | ConnStep.hSetConnected => { st with clientConnected := true }
  | ConnStep.hSendConfig =>
    if st.socketValid then
      { st with wire := st.wire ++ [Config.MSG_DISPLAY_CONFIG] }
    else st
  | ConnStep.eSendFrame =>
    if st.clientConnected ∧ st.socketValid then
      { st with wire := st.wire ++ [Config.MSG_VIDEO_FRAME] }
    else st

/-- Run a schedule (interleaving) from the post-accept initial state
(socket not yet stored, `m_clientConnected` false, nothing on the wire). -/
def connRun (sched : List ConnStep) : ConnState :=
  sched.foldl connStep ⟨false, false, []⟩

/-- A schedule is valid when the accept thread's three steps occur exactly
once each, in `handleClient` program order; `eSendFrame` steps may appear
anywhere (the encoder thread loops independently). -/
def validSchedule (sched : List ConnStep) : Prop :=
  sched.filter (fun s => s ≠ ConnStep.eSendFrame) =
    [ConnStep.hStoreSocket, ConnStep.hSetConnected, ConnStep.hSendConfig]

instance (sched : List ConnStep) : Decidable (validSchedule sched) := by
  unfold validSchedule; infer_instance

/-- Does a VIDEO_FRAME opcode appear on the wire before the first
DISPLAY_CONFIG opcode? -/
def videoBeforeConfig (wire : List ℕ) : Bool :=
  (wire.takeWhile (fun b => b ≠ Config.MSG_DISPLAY_CONFIG)).contains
    Config.MSG_VIDEO_FRAME

/-! ## Back-pressure counter (claim C2)

The pipeline coupler (`AppController::connectPipeline`, lines 326–345)
installs this frame callback, executed by the single capture thread:

    if (capture_->isBackpressured()) return;          // pendingEncodes >= 2
    capture_->pendingEncodes.fetch_add(1);
    encoder_->encode(...);
    capture_->pendingEncodes.fetch_sub(1);

Micro-step machine: in phase `idle` a tick either delivers a frame (running
the check and, if it passes, the increment and the start of `encode`) or
not; phase `encoding` means `encode` is in flight with the counter already
incremented, and its single successor step is the decrement on return.
The counter is an `atomic<int>`, modelled as `ℤ`. -/

inductive CapPhase where
  | idle
  | encoding
deriving DecidableEq, Repr

structure CaptureState where
  pending : ℤ
  phase : CapPhase
deriving DecidableEq, Repr

def capStep (s : CaptureState) (deliver : Bool) : CaptureState :=
  match s.phase with
  | CapPhase.encoding => { pending := s.pending - 1, phase := CapPhase.idle }
  | CapPhase.idle =>
    if deliver then
      if Config.ENCODER_QUEUE_DEPTH ≤ s.pending then s
      else { pending := s.pending + 1, phase := CapPhase.encoding }
    else s

/-- Execution from the initial state `pendingEncodes = 0`, outside any
callback. -/
def capRun (inputs : List Bool) : CaptureState :=
  inputs.foldl capStep ⟨0, CapPhase.idle⟩

/-! ## Capture pacing (claim C9)

Windows `ScreenCapture::captureLoop` (lines 329–341): a persistent
`nextFrameTime`; each iteration sleeps until it if early, then advances it
by the nominal `frameDuration` — before any backpressure `continue`.
State `(now, next)`; `w` is the iteration's work time:

    if (now < nextFrameTime) sleep_until(nextFrameTime);
    nextFrameTime += frameDuration;

Linux `X11Capture::captureLoop` (lines 130–255): each iteration takes its
own `frameStart = now` and, on every path (backpressure sleep, XGetImage
path, XShm path, idle path), ends with
`sleep_for(frameDuration - (now - frameStart))` when under budget — so the
next iteration starts at `frameStart + max(period, work)`, with no
persistent target. -/

def winStep (period : ℕ) (st : ℕ × ℕ) (w : ℕ) : ℕ × ℕ :=
  (max st.1 st.2 + w, st.2 + period)

/-- Windows loop: final `(now, nextFrameTime)` after the given iterations,
starting at time `t0` with `nextFrameTime = t0`. -/
def winRun (t0 period : ℕ) (works : List ℕ) : ℕ × ℕ :=
  works.foldl (winStep period) (t0, t0)

/-- X11 loop: start time of the next iteration after the given iterations,
starting at `t0`. -/
def x11Run (t0 period : ℕ) (works : List ℕ) : ℕ :=
  works.foldl (fun f w => f + max period w) t0

/-! ## TouchHandler gesture state machine (TouchHandler.cpp)

Screen coordinates are `ℤ` (the engine runs after `normalizedToScreen`);
times are `ℕ` milliseconds of the monotonic clock.  `distance(a, b) < t`
for integer points and integer threshold `t` is modelled as
`distSq a b < t²` (the float `sqrt` of an exactly-represented small integer
crosses an integer threshold exactly when the squares do).  The pinch
distances `initialPinchDistance_` / `lastPinchDistance_` are float values of
`sqrt`; the machine's behaviour depends on them only through ordered-field
comparisons, so they are carried as an exact `ℚ` input `dist` supplied with
each two-finger event and quantified over in every theorem.  Scroll deltas
(float `Δ · 1.2f`) are carried as `ℚ` with exact `12/10`. -/

inductive GState where
  | idle
  | pending
  | scrolling
  | longPressReady
  | dragging
  | twoFingerScroll
  | pinching
deriving DecidableEq, Repr

structure GestureSt where
  state : GState
  touchStartX : ℤ
  touchStartY : ℤ
  touchLastX : ℤ
  touchLastY : ℤ
  touchStartTime : ℕ
  touchLastMoveTime : ℕ
  lastScrollDeltaX : ℚ
  lastScrollDeltaY : ℚ
  lastTapTime : ℕ
  lastTapX : ℤ
  lastTapY : ℤ
  hasLastTap : Bool
  initialPinchDistance : ℚ
  lastPinchDistance : ℚ
  twoFingerLastMidX : ℤ
  twoFingerLastMidY : ℤ
  momentumX : ℤ
  momentumY : ℤ
deriving DecidableEq, Repr

/-- The externally visible action of one `handleTouch` call (the `todo`
enums of `oneFingerMove` / `oneFingerUp` / two-finger move, plus the
down-path cursor move & long-press arm). -/
inductive TouchAction where
  | noAction
  | downAndArmLongPress
  | startScroll (dx dy : ℤ)
  | scroll (dx dy : ℤ)
  | startDrag (fromX fromY toX toY : ℤ)
  | drag (x y : ℤ)
  | singleTap
  | doubleTap
  | rightClick
  | momentumScroll (vx vy : ℚ)
  | dragEnd
  | scroll2F (dx dy : ℤ)
  | pinchZoom (amount : ℤ)
deriving DecidableEq, Repr

/-- Squared Euclidean distance (see header comment for why squares). -/
def distSq (x1 y1 x2 y2 : ℤ) : ℤ :=
  (x2 - x1) * (x2 - x1) + (y2 - y1) * (y2 - y1)

/-- C `static_cast<int>` on a float/rational: truncation toward zero. -/
def ratTrunc (q : ℚ) : ℤ :=
  Int.tdiv q.num (q.den : ℤ)

/-- `TouchHandler::oneFingerDown` (lines 187–209): record the touch, enter
`Pending`, move the cursor and arm the long-press timer. -/
def oneFingerDown (s : GestureSt) (x y : ℤ) (now : ℕ) : GestureSt × TouchAction :=
  ({ s with touchStartX := x, touchStartY := y,
            touchLastX := x, touchLastY := y,
            touchStartTime := now, touchLastMoveTime := now,
            state := GState.pending },
    TouchAction.downAndArmLongPress)

/-- `TouchHandler::oneFingerMove` (lines 211–294). -/
def oneFingerMove (s : GestureSt) (x y : ℤ) (now : ℕ) : GestureSt × TouchAction :=
  let deltaX : ℚ := ((x - s.touchLastX : ℤ) : ℚ)
  let deltaY : ℚ := ((y - s.touchLastY : ℤ) : ℚ)
  let totalDistSq := distSq s.touchStartX s.touchStartY x y
  let (s1, todo) :=
    match s.state with
    | GState.pending =>
      if Config.TAP_MAX_DISTANCE ^ 2 < totalDistSq then
        let sx := deltaX * Config.SCROLL_SENSITIVITY
        let sy := deltaY * Config.SCROLL_SENSITIVITY
        ({ s with state := GState.scrolling,
                  lastScrollDeltaX := sx, lastScrollDeltaY := sy },
          TouchAction.startScroll (ratTrunc sx) (ratTrunc sy))
      else (s, TouchAction.noAction)
    | GState.longPressReady =>
      if Config.TAP_MAX_DISTANCE ^ 2 < totalDistSq then
        ({ s with state := GState.dragging },
          TouchAction.startDrag s.touchStartX s.touchStartY x y)
      else (s, TouchAction.noAction)
    | GState.scrolling =>
      let sx := deltaX * Config.SCROLL_SENSITIVITY
      let sy := deltaY * Config.SCROLL_SENSITIVITY
      let timeDelta := now - s.touchLastMoveTime
      let s2 := if 0 < timeDelta ∧ timeDelta < 100 then
                  { s with lastScrollDeltaX := sx, lastScrollDeltaY := sy }
                else s
      (s2, TouchAction.scroll (ratTrunc sx) (ratTrunc sy))
    | GState.dragging => (s, TouchAction.drag x y)
    | _ => (s, TouchAction.noAction)
  ({ s1 with touchLastX := x, touchLastY := y, touchLastMoveTime := now }, todo)

/-- `TouchHandler::oneFingerUp` (lines 296–392).  The `switch` chooses the
action and the tap bookkeeping; `state_ = Idle` follows unconditionally. -/
def oneFingerUp (s : GestureSt) (x y : ℤ) (now : ℕ) : GestureSt × TouchAction :=
  let elapsed := now - s.touchStartTime
  let dist2 := distSq s.touchStartX s.touchStartY x y
  let r : GestureSt × TouchAction :=
    match s.state with
    | GState.pending =>
      if dist2 < Config.TAP_MAX_DISTANCE ^ 2 ∧ elapsed < Config.TAP_MAX_TIME_MS then
        let timeSinceLastTap := now - s.lastTapTime
        let distFromLastTap2 := distSq s.lastTapX s.lastTapY x y
        if s.hasLastTap
            ∧ timeSinceLastTap < Config.DOUBLE_TAP_MAX_TIME_MS
            ∧ distFromLastTap2 < Config.DOUBLE_TAP_MAX_DISTANCE ^ 2 then
          -- Reset to prevent triple-tap.
          ({ s with hasLastTap := false }, TouchAction.doubleTap)
        else
          ({ s with lastTapTime := now, lastTapX := x, lastTapY := y,
                    hasLastTap := true }, TouchAction.singleTap)
      else (s, TouchAction.noAction)
    | GState.longPressReady => (s, TouchAction.rightClick)
    | GState.scrolling =>
      let timeSinceLastMove := now - s.touchLastMoveTime
      if timeSinceLastMove < 50
          ∧ (2 < |s.lastScrollDeltaX| ∨ 2 < |s.lastScrollDeltaY|) then
        ({ s with momentumX := x, momentumY := y },
          TouchAction.momentumScroll (s.lastScrollDeltaX * 6) (s.lastScrollDeltaY * 6))
      else (s, TouchAction.noAction)
    | GState.dragging => (s, TouchAction.dragEnd)
    | _ => (s, TouchAction.noAction)
  ({ r.1 with state := GState.idle }, r.2)

/-- `TouchHandler::handleOneFingerTouch` (lines 178–185). -/
def handleOneFingerTouch (s : GestureSt) (x y : ℤ) (action : ℤ) (now : ℕ) :
    GestureSt × TouchAction :=
  if action = 0 then oneFingerDown s x y now
  else if action = 1 then oneFingerMove s x y now
  else if action = 2 then oneFingerUp s x y now
  else (s, TouchAction.noAction)

/-- `TouchHandler::handleTwoFingerTouch` (lines 398–488).  `dist` is the
float `distance(x1,y1,x2,y2)` (see header comment); the midpoint uses C
truncating `int` division. -/
def handleTwoFingerTouch (s : GestureSt) (x1 y1 x2 y2 : ℤ) (dist : ℚ)
    (action : ℤ) : GestureSt × TouchAction :=
  let midX := Int.tdiv (x1 + x2) 2
  let midY := Int.tdiv (y1 + y2) 2
  if action = 0 then
    ({ s with state := GState.idle,
              initialPinchDistance := dist, lastPinchDistance := dist,
              twoFingerLastMidX := midX, twoFingerLastMidY := midY },
      TouchAction.noAction)
  else if action = 1 then
    let distChange := |dist - s.initialPinchDistance|
    let midDelta2 := distSq s.twoFingerLastMidX s.twoFingerLastMidY midX midY
    let s1 :=
      if s.state ≠ GState.twoFingerScroll ∧ s.state ≠ GState.pinching then
        if Config.PINCH_MIN_DISTANCE < distChange then
          { s with state := GState.pinching }
        else if Config.TAP_MAX_DISTANCE ^ 2 < midDelta2 then
          { s with state := GState.twoFingerScroll }
        else s
      else s
    let (s2, todo) :=
      match s1.state with
      | GState.twoFingerScroll =>
        let dx := ((midX - s1.twoFingerLastMidX : ℤ) : ℚ) * Config.SCROLL_SENSITIVITY
        let dy := ((midY - s1.twoFingerLastMidY : ℤ) : ℚ) * Config.SCROLL_SENSITIVITY
        (s1, TouchAction.scroll2F (ratTrunc dx) (ratTrunc dy))
      | GState.pinching =>
        let scaleDelta := dist - s1.lastPinchDistance
        let zoomAmount := ratTrunc (scaleDelta * (1 / 2))
        let s2 := { s1 with lastPinchDistance := dist }
        if zoomAmount ≠ 0 then (s2, TouchAction.pinchZoom zoomAmount)
        else (s2, TouchAction.noAction)
      | _ => (s1, TouchAction.noAction)
    ({ s2 with twoFingerLastMidX := midX, twoFingerLastMidY := midY }, todo)
  else if action = 2 then
    ({ s with state := GState.idle,
              touchStartX := 0, touchStartY := 0,
              touchLastX := 0, touchLastY := 0 },
      TouchAction.noAction)
  else (s, TouchAction.noAction)

/-- `TouchHandler::handleTouch` (lines 143–154), after `normalizedToScreen`:
dispatch on the pointer count. -/
def handleTouch (s : GestureSt) (pointerCount : ℕ) (x1 y1 x2 y2 : ℤ)
    (dist : ℚ) (action : ℤ) (now : ℕ) : GestureSt × TouchAction :=
  if 2 ≤ pointerCount then handleTwoFingerTouch s x1 y1 x2 y2 dist action
  else handleOneFingerTouch s x1 y1 action now

/-- The long-press timer body (lines 667–683): after `LONG_PRESS_TIME_MS`,
transition `Pending → LongPressReady` (and nothing else). -/
def longPressFire (s : GestureSt) : GestureSt :=
  if s.state = GState.pending then { s with state := GState.longPressReady } else s

/-! ## FFmpegEncoder bgraToNV12 (FFmpegEncoder.cpp, lines 40–81)

The source frame is a flat byte map `bgra : ℕ → ℕ` (values `< 256` at the
indices read; the arithmetic below needs no bound to be stated).  C signed
`>> 8` is arithmetic shift, i.e. floor division `Int.fdiv · 256`; `b /= 4`
on the non-negative 2×2 sums is plain truncating division, which on
non-negatives equals `Int.fdiv · 4`.  `std::clamp(v, lo, hi)` is translated
literally. -/

def cppClamp (v lo hi : ℤ) : ℤ :=
  if v < lo then lo else if hi < v then hi else v

/-- The Y (luma) plane built by the first nested loop: row `y`, column `x`.
`yLinesize` only spaces rows of the destination buffer, so the plane is a
list of rows. -/
def bgraToNV12Y (bgra : ℕ → ℕ) (srcStride width height : ℕ) : List (List ℤ) :=
  (List.range height).map (fun y =>
    (List.range width).map (fun x =>
      let b : ℤ := bgra (y * srcStride + x * 4)
      let g : ℤ := bgra (y * srcStride + x * 4 + 1)
      let r : ℤ := bgra (y * srcStride + x * 4 + 2)
      let yVal := Int.fdiv (66 * r + 129 * g + 25 * b + 128) 256 + 16
      cppClamp yVal 0 255))

/-- The interleaved UV plane built by the second nested loop: chroma row
`y`, chroma column `x`; the pair `(u, v)` stands for the interleaved bytes
`uvRow[2x]`, `uvRow[2x+1]`. -/
def bgraToNV12UV (bgra : ℕ → ℕ) (srcStride width height : ℕ) :
    List (List (ℤ × ℤ)) :=
  (List.range (height / 2)).map (fun y =>
    (List.range (width / 2)).map (fun x =>
      let row0 := y * 2 * srcStride
      let row1 := (y * 2 + 1) * srcStride
      let px0 := x * 2 * 4
      let px1 := (x * 2 + 1) * 4
      let b : ℤ := (bgra (row0 + px0) : ℤ) + bgra (row0 + px1)
                    + bgra (row1 + px0) + bgra (row1 + px1)
      let g : ℤ := (bgra (row0 + px0 + 1) : ℤ) + bgra (row0 + px1 + 1)
                    + bgra (row1 + px0 + 1) + bgra (row1 + px1 + 1)
      let r : ℤ := (bgra (row0 + px0 + 2) : ℤ) + bgra (row0 + px1 + 2)
                    + bgra (row1 + px0 + 2) + bgra (row1 + px1 + 2)
      let b := Int.fdiv b 4
      let g := Int.fdiv g 4
      let r := Int.fdiv r 4
      let u := Int.fdiv (-38 * r - 74 * g + 112 * b + 128) 256 + 128
      let v := Int.fdiv (112 * r - 94 * g - 18 * b + 128) 256 + 128
      (cppClamp u 0 255, cppClamp v 0 255)))

/-! Spec-side BT.601 formulas, written from the spec's words
("Y = ((66R+129G+25B+128)>>8)+16; U = ((−38R−74G+112B+128)>>8)+128;
V = ((112R−94G−18B+128)>>8)+128", every result clamped to [0, 255];
`>>8` on a signed value is the arithmetic shift, i.e. floor division). -/

def specLumaY (r g b : ℤ) : ℤ :=
  cppClamp (Int.fdiv (66 * r + 129 * g + 25 * b + 128) 256 + 16) 0 255

def specChromaU (r g b : ℤ) : ℤ :=
  cppClamp (Int.fdiv (-38 * r - 74 * g + 112 * b + 128) 256 + 128) 0 255

def specChromaV (r g b : ℤ) : ℤ :=
  cppClamp (Int.fdiv (112 * r - 94 * g - 18 * b + 128) 256 + 128) 0 255

/-! ## Helper lemmas -/

theorem cppClamp_lo (v lo hi : ℤ) (h : lo ≤ hi) : lo ≤ cppClamp v lo hi := by
  unfold cppClamp
  split_ifs <;> omega

theorem cppClamp_hi (v lo hi : ℤ) (h : lo ≤ hi) : cppClamp v lo hi ≤ hi := by
  unfold cppClamp
  split_ifs <;> omega

theorem getD_range_map {α : Type} (f : ℕ → α) (n i : ℕ) (d : α) (h : i < n) :
    ((List.range n).map f).getD i d = f i := by
  rw [List.getD_eq_getElem?_getD]
  simp [List.getElem?_range, h]

/-- Single-caller discipline: the back-pressure machine is always either
outside `encode` with counter 0 or inside `encode` with counter 1. -/
theorem capRun_shape (inputs : List Bool) :
    ((capRun inputs).phase = CapPhase.idle ∧ (capRun inputs).pending = 0) ∨
    ((capRun inputs).phase = CapPhase.encoding ∧ (capRun inputs).pending = 1) := by
  have aux : ∀ (l : List Bool) (s : CaptureState),
      ((s.phase = CapPhase.idle ∧ s.pending = 0) ∨
        (s.phase = CapPhase.encoding ∧ s.pending = 1)) →
      (((l.foldl capStep s).phase = CapPhase.idle ∧
          (l.foldl capStep s).pending = 0) ∨
        ((l.foldl capStep s).phase = CapPhase.encoding ∧
          (l.foldl capStep s).pending = 1)) := by
    intro l
    induction l with
    | nil => exact fun s hs => hs
    | cons d tl ih =>
      intro s hs
      apply ih
      rcases hs with ⟨h1, h2⟩ | ⟨h1, h2⟩
      · cases d <;> simp [capStep, h1, h2, Config.ENCODER_QUEUE_DEPTH]
      · simp [capStep, h1, h2]
  exact aux inputs _ (Or.inl ⟨rfl, rfl⟩)

/-- The Windows loop's `nextFrameTime` advances by exactly one nominal
period per iteration, independently of the iteration work times. -/
theorem winRun_next (t0 period : ℕ) (works : List ℕ) :
    (winRun t0 period works).2 = t0 + works.length * period := by
  have aux : ∀ (l : List ℕ) (a b : ℕ),
      (l.foldl (winStep period) (a, b)).2 = b + l.length * period := by
    intro l
    induction l with
    | nil => intro a b; simp
    | cons w tl ih =>
      intro a b
      simp only [List.foldl_cons, winStep, List.length_cons]
      rw [ih]
      ring
  simpa [winRun] using aux works t0 t0

/-- X11 pacing: with every iteration under budget, each iteration advances
the start time by exactly one period. -/
theorem x11Run_allOnTime (period : ℕ) :
    ∀ (ws : List ℕ) (t : ℕ), (∀ w ∈ ws, w ≤ period) →
      x11Run t period ws = t + ws.length * period := by
  intro ws
  induction ws with
  | nil => intro t _; simp [x11Run]
  | cons w tl ih =>
    intro t h
    have hw : w ≤ period := h w (by simp)
    have htl : ∀ v ∈ tl, v ≤ period := fun v hv => h v (by simp [hv])
    show (List.foldl (fun f w => f + max period w) (t + max period w) tl) =
      t + (tl.length + 1) * period
    rw [max_eq_left hw]
    have := ih (t + period) htl
    unfold x11Run at this
    rw [this]
    ring

/-! ## Claim theorems -/

/-- **C1** (code bug witness).  The interleaving in which `handleClient`
stores the socket and sets `m_clientConnected = true`, the encoder thread's
`sendFrame` then observes the connected flag and takes `m_sendMutex` first,
and `sendDisplayConfig` writes afterwards, is a valid schedule of
`StreamingServer::handleClient` against a concurrent `sendFrame` — and on
it the wire carries a VIDEO_FRAME before the 13-byte DISPLAY_CONFIG,
contradicting the claimed ordering. -/
theorem handshake_video_before_config :
    validSchedule [ConnStep.hStoreSocket, ConnStep.hSetConnected,
        ConnStep.eSendFrame, ConnStep.hSendConfig] ∧
      (connRun [ConnStep.hStoreSocket, ConnStep.hSetConnected,
        ConnStep.eSendFrame, ConnStep.hSendConfig]).wire =
        [Config.MSG_VIDEO_FRAME, Config.MSG_DISPLAY_CONFIG] ∧
      videoBeforeConfig (connRun [ConnStep.hStoreSocket, ConnStep.hSetConnected,
        ConnStep.eSendFrame, ConnStep.hSendConfig]).wire = true := by
  decide

/-- **C2**.  With the single capture thread as only caller, the
back-pressure counter `pendingEncodes` stays within `[0, 2]` at every point
of every execution (it in fact never exceeds 1). -/
theorem pendingEncodes_bounded (inputs : List Bool) :
    0 ≤ (capRun inputs).pending ∧
      (capRun inputs).pending ≤ Config.ENCODER_QUEUE_DEPTH := by
  rcases capRun_shape inputs with ⟨-, h⟩ | ⟨-, h⟩ <;>
    rw [h] <;> exact ⟨by norm_num, by norm_num [Config.ENCODER_QUEUE_DEPTH]⟩

/-- **C3**.  Every VIDEO_FRAME message `sendFrame` hands to the socket has
a payload of at most `MAX_FRAME_SIZE` bytes under its 5-byte header, and an
oversized frame is dropped whole: nothing is sent and the per-session stats
counters are untouched. -/
theorem sendFrame_oversizeDrop (st : ServerState) (data : ℕ → ℕ) (size : ℕ)
    (dataNull sendOk windowElapsed : Bool) :
    (∀ m : WireMsg,
        (sendFrame st data size dataNull sendOk windowElapsed).2 = some m →
          m.payload.length ≤ Config.MAX_FRAME_SIZE ∧ m.header.length = 5) ∧
    (Config.MAX_FRAME_SIZE < size →
        sendFrame st data size dataNull sendOk windowElapsed = (st, none)) := by
  constructor
  · intro m hm
    unfold sendFrame at hm
    split_ifs at hm with h1 h2 h3 h4
    · cases hm
      constructor
      · simpa using Nat.le_of_not_lt h2
      · simp [writeBE32]
    · cases hm
      constructor
      · simpa using Nat.le_of_not_lt h2
      · simp [writeBE32]
  · intro hlt
    unfold sendFrame
    split_ifs <;> rfl

/-- **C3 witness**: a 5 MiB + 1 frame on a connected session is dropped:
no message, state unchanged. -/
theorem sendFrame_oversizeDrop_witness :
    Config.MAX_FRAME_SIZE < 5242881 ∧
      sendFrame ⟨true, true, 0, 0⟩ (fun _ => 0) 5242881 false true false =
        (⟨true, true, 0, 0⟩, none) :=
  ⟨by decide,
    (sendFrame_oversizeDrop ⟨true, true, 0, 0⟩ (fun _ => 0) 5242881
      false true false).2 (by decide)⟩

/-- **C4**.  An opcode that is neither TOUCH_EVENT (0x02) nor PING (0x04)
is fatal for the session with no resynchronization attempt: the receive
loop reads no further byte, performs no callback or send, exits, closes
the client socket and fires `connection_callback(false)`. -/
theorem receiveLoop_unknownOpcode (b : ℕ) (rest : List ℕ)
    (ht : b ≠ Config.MSG_TOUCH_EVENT) (hp : b ≠ Config.MSG_PING) :
    receiveLoop (b :: rest) =
      [ServerAction.closeClient, ServerAction.connCallback false] ∧
    receiveConsumed (b :: rest) = 1 := by
  constructor
  · unfold receiveLoop
    simp only [receiveLoopBody]
    simp [ht, hp]
  · simp only [receiveConsumed]
    simp [ht, hp]

/-- **C4 witness**: opcode 7 (with more bytes available) ends the session
after one byte. -/
theorem receiveLoop_unknownOpcode_witness :
    receiveLoop [7, 9] =
      [ServerAction.closeClient, ServerAction.connCallback false] ∧
    receiveConsumed [7, 9] = 1 :=
  receiveLoop_unknownOpcode 7 [9] (by decide) (by decide)

/-- **C5**.  A PING (opcode 0x04 followed by 8 bytes) yields exactly one
PONG reply of 9 bytes: opcode 0x05 followed by the PING's 8 payload bytes
byte-for-byte (a plain `memcpy`, no byte-order conversion), after which
the loop continues with the remaining stream. -/
theorem receiveLoop_pongEcho (ts rest : List ℕ) (h : ts.length = 8) :
    receiveLoopBody (Config.MSG_PING :: (ts ++ rest)) =
      ServerAction.sendPacket (Config.MSG_PONG :: ts) :: receiveLoopBody rest ∧
    (Config.MSG_PONG :: ts).length = 9 := by
  have h8 : 8 ≤ (ts ++ rest).length := by simp [h]
  constructor
  · simp only [receiveLoopBody]
    rw [if_pos trivial, if_pos h8, ← h, List.take_left, List.drop_left,
      if_neg (by decide : ¬((Config.MSG_PING : ℕ) = Config.MSG_TOUCH_EVENT))]
  · simp [h]

/-- **C5 witness**: the spec's ping round-trip example
`04 DE AD BE EF 01 02 03 04` → `05 DE AD BE EF 01 02 03 04`. -/
theorem receiveLoop_pongEcho_witness :
    receiveLoopBody (Config.MSG_PING :: ([222, 173, 190, 239, 1, 2, 3, 4] ++ [])) =
      ServerAction.sendPacket (Config.MSG_PONG :: [222, 173, 190, 239, 1, 2, 3, 4]) ::
        receiveLoopBody [] ∧
    (Config.MSG_PONG :: ([222, 173, 190, 239, 1, 2, 3, 4] : List ℕ)).length = 9 :=
  receiveLoop_pongEcho [222, 173, 190, 239, 1, 2, 3, 4] [] (by decide)

/-- **C10**.  A TOUCH_EVENT whose pointer-count byte is outside {1, 2} ends
the session: the loop reads only the opcode and the count byte — never the
coordinate/action payload — invokes no touch callback, closes the socket
and fires `connection_callback(false)`. -/
theorem receiveLoop_badPointerCount (pc : ℕ) (rest : List ℕ)
    (h : pc < 1 ∨ pc > 2) :
    receiveLoop (Config.MSG_TOUCH_EVENT :: pc :: rest) =
      [ServerAction.closeClient, ServerAction.connCallback false] ∧
    receiveConsumed (Config.MSG_TOUCH_EVENT :: pc :: rest) = 2 := by
  constructor
  · unfold receiveLoop
    simp only [receiveLoopBody]
    simp [h]
    intro h1 h2
    exact absurd h (by omega)
  · simp only [receiveConsumed]
    simp [h]
    intro h1 h2
    exact absurd h (by omega)

/-- **C10 witness**: pointer count 3 (with the would-be payload available)
ends the session after the two bytes. -/
theorem receiveLoop_badPointerCount_witness :
    receiveLoop (Config.MSG_TOUCH_EVENT :: 3 :: [0, 0, 0]) =
      [ServerAction.closeClient, ServerAction.connCallback false] ∧
    receiveConsumed (Config.MSG_TOUCH_EVENT :: 3 :: [0, 0, 0]) = 2 :=
  receiveLoop_badPointerCount 3 [0, 0, 0] (by decide)

/-- **C6**.  A pointer event with action = UP (2) — one- or two-finger,
from any gesture state whatsoever — leaves the gesture state machine in
Idle. -/
theorem touchUp_idle (s : GestureSt) (pointerCount : ℕ) (x1 y1 x2 y2 : ℤ)
    (dist : ℚ) (now : ℕ) :
    ((handleTouch s pointerCount x1 y1 x2 y2 dist 2 now).1).state = GState.idle := by
  unfold handleTouch
  split
  · norm_num [handleTwoFingerTouch]
  · norm_num [handleOneFingerTouch, oneFingerUp]

/-- **C7**.  Tap arbitration on a tap-eligible UP in Pending: with a stored
last-tap within `DOUBLE_TAP_MAX_TIME_MS` and `DOUBLE_TAP_MAX_DISTANCE`, a
DoubleTap is emitted and the last-tap record cleared (so a third identical
tap yields a SingleTap, not a triple chain); otherwise a SingleTap is
emitted and this tap's position and time become the new last-tap. -/
theorem oneFingerUp_tapArbitration (s : GestureSt) (x y : ℤ) (now : ℕ)
    (hp : s.state = GState.pending)
    (hd : distSq s.touchStartX s.touchStartY x y < Config.TAP_MAX_DISTANCE ^ 2)
    (ht : now - s.touchStartTime < Config.TAP_MAX_TIME_MS) :
    if s.hasLastTap
        ∧ now - s.lastTapTime < Config.DOUBLE_TAP_MAX_TIME_MS
        ∧ distSq s.lastTapX s.lastTapY x y < Config.DOUBLE_TAP_MAX_DISTANCE ^ 2 then
      (oneFingerUp s x y now).2 = TouchAction.doubleTap ∧
        (oneFingerUp s x y now).1.hasLastTap = false
    else
      (oneFingerUp s x y now).2 = TouchAction.singleTap ∧
        (oneFingerUp s x y now).1.hasLastTap = true ∧
        (oneFingerUp s x y now).1.lastTapX = x ∧
        (oneFingerUp s x y now).1.lastTapY = y ∧
        (oneFingerUp s x y now).1.lastTapTime = now := by
  obtain ⟨st, tsx, tsy, tlx, tly, tst, tlm, sdx, sdy, ltt, ltx, lty, hltp,
    ipd, lpd, tfx, tfy, mx, my⟩ := s
  simp only at hp hd ht ⊢
  subst hp
  simp only [oneFingerUp]
  split_ifs with hA hB hC <;>
    first
      | exact ((by assumption :
          ¬(distSq tsx tsy x y < Config.TAP_MAX_DISTANCE ^ 2 ∧
            now - tst < Config.TAP_MAX_TIME_MS)) ⟨hd, ht⟩).elim
      | simp

/-- **C7 witness**: a second tap 1 px away, 200 ms after a stored tap,
inside a Pending touch of 100 ms and 3 px, yields a DoubleTap and clears
the last-tap record. -/
theorem oneFingerUp_tapArbitration_witness :
    (if (⟨GState.pending, 100, 100, 100, 100, 1000, 1000, 0, 0, 900, 102, 100,
          true, 0, 0, 0, 0, 0, 0⟩ : GestureSt).hasLastTap
        ∧ 1100 - (⟨GState.pending, 100, 100, 100, 100, 1000, 1000, 0, 0, 900,
            102, 100, true, 0, 0, 0, 0, 0, 0⟩ : GestureSt).lastTapTime <
            Config.DOUBLE_TAP_MAX_TIME_MS
        ∧ distSq 102 100 103 100 < Config.DOUBLE_TAP_MAX_DISTANCE ^ 2 then
      (oneFingerUp ⟨GState.pending, 100, 100, 100, 100, 1000, 1000, 0, 0, 900,
          102, 100, true, 0, 0, 0, 0, 0, 0⟩ 103 100 1100).2 =
          TouchAction.doubleTap ∧
        (oneFingerUp ⟨GState.pending, 100, 100, 100, 100, 1000, 1000, 0, 0, 900,
            102, 100, true, 0, 0, 0, 0, 0, 0⟩ 103 100 1100).1.hasLastTap = false
    else
      (oneFingerUp ⟨GState.pending, 100, 100, 100, 100, 1000, 1000, 0, 0, 900,
          102, 100, true, 0, 0, 0, 0, 0, 0⟩ 103 100 1100).2 =
          TouchAction.singleTap ∧
        (oneFingerUp ⟨GState.pending, 100, 100, 100, 100, 1000, 1000, 0, 0, 900,
            102, 100, true, 0, 0, 0, 0, 0, 0⟩ 103 100 1100).1.hasLastTap = true ∧
        (oneFingerUp ⟨GState.pending, 100, 100, 100, 100, 1000, 1000, 0, 0, 900,
            102, 100, true, 0, 0, 0, 0, 0, 0⟩ 103 100 1100).1.lastTapX = 103 ∧
        (oneFingerUp ⟨GState.pending, 100, 100, 100, 100, 1000, 1000, 0, 0, 900,
            102, 100, true, 0, 0, 0, 0, 0, 0⟩ 103 100 1100).1.lastTapY = 100 ∧
        (oneFingerUp ⟨GState.pending, 100, 100, 100, 100, 1000, 1000, 0, 0, 900,
            102, 100, true, 0, 0, 0, 0, 0, 0⟩ 103 100 1100).1.lastTapTime = 1100) :=
  oneFingerUp_tapArbitration
    ⟨GState.pending, 100, 100, 100, 100, 1000, 1000, 0, 0, 900, 102, 100,
      true, 0, 0, 0, 0, 0, 0⟩ 103 100 1100 rfl (by decide) (by decide)

/-- **C8**.  The encoder's BGRA → NV12 conversion: every luma sample of the
built Y plane is `clamp(((66R+129G+25B+128) >> 8) + 16)`, every chroma pair
of the built UV plane is `(clamp(((−38R−74G+112B+128) >> 8) + 128),
clamp(((112R−94G−18B+128) >> 8) + 128))` of the truncated 2×2 box average
of the four covered BGRA pixels, and every result lies in `[0, 255]`. -/
theorem bgraToNV12_bt601 (bgra : ℕ → ℕ) (stride w h x y : ℕ) :
    (x < w → y < h →
      ((bgraToNV12Y bgra stride w h).getD y []).getD x 0 =
        specLumaY (bgra (y * stride + x * 4 + 2)) (bgra (y * stride + x * 4 + 1))
          (bgra (y * stride + x * 4)) ∧
      0 ≤ ((bgraToNV12Y bgra stride w h).getD y []).getD x 0 ∧
      ((bgraToNV12Y bgra stride w h).getD y []).getD x 0 ≤ 255) ∧
    (x < w / 2 → y < h / 2 →
      ((bgraToNV12UV bgra stride w h).getD y []).getD x (0, 0) =
        (specChromaU
            (Int.fdiv ((bgra (y * 2 * stride + x * 2 * 4 + 2) : ℤ)
              + bgra (y * 2 * stride + (x * 2 + 1) * 4 + 2)
              + bgra ((y * 2 + 1) * stride + x * 2 * 4 + 2)
              + bgra ((y * 2 + 1) * stride + (x * 2 + 1) * 4 + 2)) 4)
            (Int.fdiv ((bgra (y * 2 * stride + x * 2 * 4 + 1) : ℤ)
              + bgra (y * 2 * stride + (x * 2 + 1) * 4 + 1)
              + bgra ((y * 2 + 1) * stride + x * 2 * 4 + 1)
              + bgra ((y * 2 + 1) * stride + (x * 2 + 1) * 4 + 1)) 4)
            (Int.fdiv ((bgra (y * 2 * stride + x * 2 * 4) : ℤ)
              + bgra (y * 2 * stride + (x * 2 + 1) * 4)
              + bgra ((y * 2 + 1) * stride + x * 2 * 4)
              + bgra ((y * 2 + 1) * stride + (x * 2 + 1) * 4)) 4),
          specChromaV
            (Int.fdiv ((bgra (y * 2 * stride + x * 2 * 4 + 2) : ℤ)
              + bgra (y * 2 * stride + (x * 2 + 1) * 4 + 2)
              + bgra ((y * 2 + 1) * stride + x * 2 * 4 + 2)
              + bgra ((y * 2 + 1) * stride + (x * 2 + 1) * 4 + 2)) 4)
            (Int.fdiv ((bgra (y * 2 * stride + x * 2 * 4 + 1) : ℤ)
              + bgra (y * 2 * stride + (x * 2 + 1) * 4 + 1)
              + bgra ((y * 2 + 1) * stride + x * 2 * 4 + 1)
              + bgra ((y * 2 + 1) * stride + (x * 2 + 1) * 4 + 1)) 4)
            (Int.fdiv ((bgra (y * 2 * stride + x * 2 * 4) : ℤ)
              + bgra (y * 2 * stride + (x * 2 + 1) * 4)
              + bgra ((y * 2 + 1) * stride + x * 2 * 4)
              + bgra ((y * 2 + 1) * stride + (x * 2 + 1) * 4)) 4)) ∧
      0 ≤ (((bgraToNV12UV bgra stride w h).getD y []).getD x (0, 0)).1 ∧
      (((bgraToNV12UV bgra stride w h).getD y []).getD x (0, 0)).1 ≤ 255 ∧
      0 ≤ (((bgraToNV12UV bgra stride w h).getD y []).getD x (0, 0)).2 ∧
      (((bgraToNV12UV bgra stride w h).getD y []).getD x (0, 0)).2 ≤ 255) := by
  constructor
  · intro hx hy
    rw [bgraToNV12Y, getD_range_map _ h y _ hy, getD_range_map _ w x _ hx]
    refine ⟨rfl, cppClamp_lo _ 0 255 (by norm_num), cppClamp_hi _ 0 255 (by norm_num)⟩
  · intro hx hy
    rw [bgraToNV12UV, getD_range_map _ (h / 2) y _ hy, getD_range_map _ (w / 2) x _ hx]
    exact ⟨rfl, cppClamp_lo _ 0 255 (by norm_num), cppClamp_hi _ 0 255 (by norm_num),
      cppClamp_lo _ 0 255 (by norm_num), cppClamp_hi _ 0 255 (by norm_num)⟩

/-- **C8 witness**: the 2×2 gradient frame `bgra i = i` (stride 8): the
luma sample at (0,0) and the single chroma pair evaluate to the spec
formulas. -/
theorem bgraToNV12_bt601_witness :
    ((bgraToNV12Y (fun i => i) 8 2 2).getD 0 []).getD 0 0 = specLumaY 2 1 0 ∧
      ((bgraToNV12UV (fun i => i) 8 2 2).getD 0 []).getD 0 (0, 0) =
        (specChromaU 8 7 6, specChromaV 8 7 6) := by
  have H := bgraToNV12_bt601 (fun i => i) 8 2 2 0 0
  refine ⟨?_, ?_⟩
  · have := (H.1 (by decide) (by decide)).1
    simpa using this
  · have := (H.2 (by decide) (by decide)).1
    simpa using this

/-- **C9 counterexample**.  Period 10: after a single transient 25-time-unit
iteration the X11 loop's subsequent iteration start is 45 while the
nominal-advance schedule (which the Windows loop keeps) is at 30 — the
X11 capture worker does not advance a next-target by the nominal period,
and the overrun shifts its schedule permanently. -/
theorem x11Pacing_driftsAfterOverrun :
    x11Run 0 10 [25, 10, 10] = 45 ∧ (winRun 0 10 [25, 10, 10]).2 = 30 ∧
      x11Run 0 10 [25, 10, 10] ≠ (winRun 0 10 [25, 10, 10]).2 := by
  decide

/-- **C9 amended**.  The Windows capture worker advances its next-target by
the nominal period each iteration — `nextFrameTime` after `n` iterations is
`t0 + n·period` whatever the iteration delays, so a transiently late
iteration does not shift the target schedule; the X11 capture worker
instead sleeps for the remainder of the period measured from each
iteration's own start, so one iteration overrunning by `d` shifts every
subsequent frame start by `d` even when all later iterations are under
budget. -/
theorem capturePacing_amended :
    (∀ (t0 period : ℕ) (works : List ℕ),
        (winRun t0 period works).2 = t0 + works.length * period) ∧
    (∀ (t0 period d : ℕ) (ws : List ℕ), (∀ w ∈ ws, w ≤ period) →
        x11Run t0 period ((period + d) :: ws) =
          t0 + (ws.length + 1) * period + d) := by
  constructor
  · exact fun t0 period works => winRun_next t0 period works
  · intro t0 period d ws h
    have h1 : x11Run t0 period ((period + d) :: ws) =
        x11Run (t0 + (period + d)) period ws := by
      show (List.foldl (fun f w => f + max period w)
          (t0 + max period (period + d)) ws) = _
      rw [max_eq_right (Nat.le_add_right period d)]
      rfl
    rw [h1, x11Run_allOnTime period ws _ h]
    ring

/-- **C9 amended witness**: period 10, a 15-unit overrun iteration then
on-time works `[3, 10]`: the X11 schedule sits at `35 = 0 + 3·10 + 5`,
still 5 late. -/
theorem capturePacing_amended_witness :
    (∀ w ∈ ([3, 10] : List ℕ), w ≤ 10) ∧
      x11Run 0 10 ((10 + 5) :: [3, 10]) =
        0 + (([3, 10] : List ℕ).length + 1) * 10 + 5 :=
  ⟨by decide, capturePacing_amended.2 0 10 5 [3, 10] (by decide)⟩

end SideScreen
